import Mathlib

/-
Verification of the target_api_client library (src/target_api_client/__init__.py)
against its natural-language specification.

The embedding is shallow: each Python function of the client is translated
into a Lean definition over explicit data.  The HTTP transport (the
requests_oauthlib session) is modelled as an explicit parameter: either a
scripted list of responses or a function from requests to responses, so
that the client's own response handling is what the theorems speak about.
-/

namespace TargetApi

/-- Parsed JSON values, the result of Python resp.json(). -/
inductive Json where
  | null : Json
  | bool (b : Bool) : Json
  | num (n : Int) : Json
  | str (s : String) : Json
  | arr (elems : List Json) : Json
  | obj (fields : List (String × Json)) : Json
deriving Repr

/-- HTTP response as the client observes it: the status code, the parsed
JSON body (resp.json()) and the WWW-Authenticate header when the server
sent one (resp.headers.get returns None when absent). -/
structure Response where
  status : Nat
  body : Json
  wwwAuthenticate : Option String
deriving Repr

/-- Error taxonomy of the library, from the three exception classes.
TargetValidationError stores the parsed body as its field mapping and has
http_status 400; TargetAuthError stores the body and the WWW-Authenticate
header text and has http_status 401; TargetApiError stores the body and
the raw status code. -/
inductive ApiErr where
  | validationError (fields : Json) : ApiErr
  | authError (message : Json) (oauthMessage : Option String) : ApiErr
  | apiError (message : Json) (httpStatus : Nat) : ApiErr
deriving Repr

/-- Success values returned by _request: the parsed JSON body on 200, or
the Python literal True on 204. -/
inductive Value where
  | json (j : Json) : Value
  | bool (b : Bool) : Value
deriving Repr

/-- Embedding of TargetApiClient._process_error: status 400 raises
TargetValidationError(body); status 401 raises TargetAuthError(body,
resp.headers.get of WWW-Authenticate); anything else raises
TargetApiError(body, status_code). -/
def processError (resp : Response) : ApiErr :=
  if resp.status = 400 then .validationError resp.body
  else if resp.status = 401 then .authError resp.body resp.wwwAuthenticate
  else .apiError resp.body resp.status

/-- Embedding of the response classification in TargetApiClient._request:
status 200 returns response.json(), status 204 returns True, and every
other status falls through to _process_error, which raises. -/
def requestClassify (resp : Response) : Except ApiErr Value :=
  if resp.status = 200 then .ok (.json resp.body)
  else if resp.status = 204 then .ok (.bool true)
  else .error (processError resp)

/-- Outcome of one call to _request against a scripted transport: the
returned value or raised error, together with how many HTTP attempts were
issued and how many token refreshes were triggered by the call. -/
structure RequestOutcome where
  result : Except ApiErr Value
  httpAttempts : Nat
  tokenRefreshes : Nat
deriving Repr

/-- Embedding of TargetApiClient._request run against a scripted transport
(the list of responses the server would give to successive attempts).
The body of _request calls self.session.request exactly once and then
classifies the response; no code path inspects a 401 status to refresh the
token or to reissue the request (the underlying OAuth2Session refreshes
only when the stored token is recognised as expired before the call, never
in reaction to a 401 response), so exactly one response is consumed, with
zero 401-triggered refreshes. -/
def requestRun (script : List Response) : Option RequestOutcome :=
  match script with
  | [] => none
  | r :: _ => some ⟨requestClassify r, 1, 0⟩

/-- Python str.lstrip with a single character: drop every leading
occurrence of that character. -/
def lstrip (c : Char) (s : String) : String :=
  ⟨s.data.dropWhile (fun d => d = c)⟩

/-- Python str.startswith for a string argument. -/
def startswith (s : String) (p : String) : Bool :=
  p.data.isPrefixOf s.data

/-- Hosts and base URL from the class constants and constructor:
url = https concatenated with the host and /api/. -/
def PRODUCTION_HOST : String := "target.my.com"

/-- Sandbox host constant. -/
def SANDBOX_HOST : String := "target-sandbox.my.com"

/-- Base URL built in the constructor from the chosen host. -/
def baseUrl (host : String) : String :=
  "https://" ++ host ++ "/api/"

/-- Embedding of TargetApiClient._get_url_resource: strip every leading
slash, prepend v1/ when the stripped path does not start with the letter
v, and append to the base URL. -/
def getUrlResource (url : String) (resource : String) : String :=
  let r := lstrip '/' resource
  let r2 := if startswith r "v" = false then "v1/" ++ r else r
  url ++ r2

/-- Modelled from the spec (for comparison with the source): the URL
builder the specification describes, which prepends v1/ unless the path
already starts with a version segment, a letter v followed by a digit. -/
def specGetUrlResource (url : String) (resource : String) : String :=
  let r := lstrip '/' resource
  let versioned :=
    match r.data with
    | 'v' :: d :: _ => d.isDigit
    | _ => false
  let r2 := if versioned then r else "v1/" ++ r
  url ++ r2

/-- Token-manager state: the client's stored token field (None until a
token is supplied or fetched) and, for observability, the list of tokens
handed to the external token_updater callback, in order. -/
structure TokenState where
  stored : Option Json
  delivered : List Json
deriving Repr

/-- Embedding of TargetApiClient._token_updater: store the token in the
client, and when an external callback was registered at construction,
forward exactly that token to it; with no callback registered, only store
it. -/
def tokenUpdaterStep (hasCallback : Bool) (st : TokenState) (token : Json) :
    TokenState :=
  { stored := some token
    delivered := if hasCallback then st.delivered ++ [token] else st.delivered }

/-- Apply a sequence of token updates (fetches or refreshes, each of which
goes through _token_updater) to a state. -/
def runUpdates (hasCallback : Bool) (st : TokenState) (ts : List Json) :
    TokenState :=
  ts.foldl (tokenUpdaterStep hasCallback) st

/-- Exceptions the OAuth library can raise out of fetch_token, as the
client sees them.  InvalidGrantError carries the protocol-level
description such as invalid_grant. -/
inductive OAuthFailure where
  | invalidGrantError (description : String) : OAuthFailure
  | otherOAuthError (name : String) : OAuthFailure
deriving Repr

/-- Everything a client method can raise: the library's own typed errors,
or an exception of the underlying OAuth dependency propagating through. -/
inductive RaisedError where
  | target (e : ApiErr) : RaisedError
  | oauthlib (e : OAuthFailure) : RaisedError
deriving Repr

/-- Embedding of TargetApiClient.get_token, with the outcome of the
session's fetch_token call as a parameter.  The source wraps the call in
try/except InvalidGrantError whose handler is a bare raise, so a fetch
failure propagates as the library exception itself, unwrapped; on success
the token is passed to _token_updater. -/
def getToken (fetchOutcome : Except OAuthFailure Json) (hasCallback : Bool)
    (st : TokenState) : Except RaisedError TokenState :=
  match fetchOutcome with
  | .error e => .error (.oauthlib e)
  | .ok token => .ok (tokenUpdaterStep hasCallback st token)

/-- Recognizer for the outcome the specification promises from a failed
grant: an error of the library's typed TargetAuthError kind. -/
def raisesTargetAuthError (r : Except RaisedError TokenState) : Bool :=
  match r with
  | .error (.target (.authError _ _)) => true
  | _ => false

/-- Keyword parameters the TargetApiClient constructor accepts, read off
its def __init__ signature (the function has no var-keyword parameter, so
any other keyword raises TypeError at the call). -/
def acceptedInitKeywords : List String :=
  ["client_id", "client_secret", "token", "is_sandbox", "token_updater"]

/-- Whether the constructor accepts a given keyword argument. -/
def initAccepts (kw : String) : Bool :=
  acceptedInitKeywords.contains kw

/-- Construction parameters of TargetApiClient, mirroring the __init__
signature field by field. -/
structure InitParams where
  client_id : String
  client_secret : String
  token : Option Json
  is_sandbox : Bool
  hasTokenUpdater : Bool
deriving Repr

/-- OAuth2 grant types named by the class constants (the agency, refresh
and authorization-code variants survive only in commented-out code). -/
inductive GrantType where
  | clientCredentials : GrantType
  | agencyClientCredentials : GrantType
  | refreshTokenGrant : GrantType
  | authorizationCode : GrantType
deriving Repr, DecidableEq

/-- Grant type a constructed client uses in fetch_token: the session is
always built over BackendApplicationClient, whose grant type is
client_credentials; nothing in __init__ or get_token varies it. -/
def fetchGrantType (_p : InitParams) : GrantType :=
  .clientCredentials

/-- HTTP request as handed to the session: method, full URL, and the
params keyword (the query parameters). -/
structure HttpRequest where
  method : String
  url : String
  params : List (String × String)
deriving Repr

/-- Request that get_ok_lead builds: method get, resource
v2/ok/lead_ads/ followed by the form id and .json, with the caller's
keyword arguments passed through as params. -/
def getOkLeadRequest (url : String) (formId : String)
    (kwargs : List (String × String)) : HttpRequest :=
  { method := "get"
    url := getUrlResource url ("v2/ok/lead_ads/" ++ formId ++ ".json")
    params := kwargs }

/-- Embedding of TargetApiClient.get_ok_lead over a transport function:
build the request, let the transport answer it, and classify the response
exactly as _request does. -/
def getOkLead (url : String) (formId : String)
    (kwargs : List (String × String)) (transport : HttpRequest → Response) :
    Except ApiErr Value :=
  requestClassify (transport (getOkLeadRequest url formId kwargs))

/-- Helper: stripping leading slashes absorbs one more leading slash. -/
theorem lstrip_slash_cons (r : String) :
    lstrip '/' ("/" ++ r) = lstrip '/' r := by
  have h : ("/" ++ r).data = '/' :: r.data := by
    rw [String.data_append]; rfl
  simp [lstrip, h, List.dropWhile]

/-- Helper: a resource whose first character is v is appended to the base
URL unchanged by _get_url_resource. -/
theorem getUrlResource_head_v (url : String) (s : String) (cs : List Char)
    (hdata : s.data = 'v' :: cs) :
    getUrlResource url s = url ++ s := by
  have hl : lstrip '/' s = s := by
    apply String.ext
    simp [lstrip, hdata, List.dropWhile]
  have hs : startswith s "v" = true := by
    have hv : ("v" : String).data = ['v'] := rfl
    simp [startswith, hdata, hv, List.isPrefixOf]
  simp [getUrlResource, hl, hs]

/-- C2 counterexample: on the path vendors/list.json, which does not start
with a version segment v-digit, the specified builder would prepend v1/
but the code, which tests only for a leading letter v, appends the path
unchanged, so the two URLs differ. -/
theorem c2_counterexample :
    specGetUrlResource (baseUrl SANDBOX_HOST) "vendors/list.json" =
      baseUrl SANDBOX_HOST ++ ("v1/" ++ "vendors/list.json") ∧
    getUrlResource (baseUrl SANDBOX_HOST) "vendors/list.json" =
      baseUrl SANDBOX_HOST ++ "vendors/list.json" ∧
    getUrlResource (baseUrl SANDBOX_HOST) "vendors/list.json" ≠
      specGetUrlResource (baseUrl SANDBOX_HOST) "vendors/list.json" := by
  refine ⟨by decide, by decide, by decide⟩

/-- C2 amended: for every resource path whose slash-stripped form does not
start with the letter v, the builder returns the base URL followed by v1/
and the stripped path; for every path whose stripped form starts with the
letter v (digit or not), the stripped path is appended unchanged. -/
theorem c2_amended (url : String) (r : String) :
    (startswith (lstrip '/' r) "v" = false →
      getUrlResource url r = url ++ ("v1/" ++ lstrip '/' r)) ∧
    (startswith (lstrip '/' r) "v" = true →
      getUrlResource url r = url ++ lstrip '/' r) := by
  constructor <;> intro h <;> simp [getUrlResource, h]

/-- C2 witness: concrete evaluation of both branches of the amended
claim. -/
theorem c2_amended_witness :
    getUrlResource (baseUrl SANDBOX_HOST) "/banners.json" =
      baseUrl SANDBOX_HOST ++ ("v1/" ++ lstrip '/' "/banners.json") ∧
    getUrlResource (baseUrl SANDBOX_HOST) "v2/banners.json" =
      baseUrl SANDBOX_HOST ++ lstrip '/' "v2/banners.json" :=
  ⟨(c2_amended (baseUrl SANDBOX_HOST) "/banners.json").1 (by decide),
   (c2_amended (baseUrl SANDBOX_HOST) "v2/banners.json").2 (by decide)⟩

/-- C8: every path whose slash-stripped form begins with the letter v,
even when the next character is not a digit, is appended to the base URL
without a v1/ prefix, and stripping removes every leading slash, not just
one. -/
theorem c8_v_prefix_no_v1 (url : String) (r : String)
    (h : startswith (lstrip '/' r) "v" = true) :
    getUrlResource url r = url ++ lstrip '/' r ∧
    getUrlResource url ("/" ++ r) = getUrlResource url r := by
  constructor
  · simp [getUrlResource, h]
  · simp [getUrlResource, lstrip_slash_cons]

/-- C8 witness: vendors/list.json behind two leading slashes keeps its
name unprefixed and loses both slashes. -/
theorem c8_v_prefix_no_v1_witness :
    getUrlResource (baseUrl SANDBOX_HOST) "/vendors/list.json" =
      baseUrl SANDBOX_HOST ++ lstrip '/' "/vendors/list.json" ∧
    getUrlResource (baseUrl SANDBOX_HOST) ("/" ++ "/vendors/list.json") =
      getUrlResource (baseUrl SANDBOX_HOST) "/vendors/list.json" :=
  c8_v_prefix_no_v1 (baseUrl SANDBOX_HOST) "/vendors/list.json" (by decide)

/-- C3: a 400 response raises TargetValidationError whose field mapping is
the parsed body; a 401 response raises TargetAuthError carrying the body
and the WWW-Authenticate header value when present; every other non-2xx
response raises the generic TargetApiError carrying the body and the
status code. -/
theorem c3_error_classification (resp : Response) :
    (resp.status = 400 →
      requestClassify resp = .error (.validationError resp.body)) ∧
    (resp.status = 401 →
      requestClassify resp = .error (.authError resp.body resp.wwwAuthenticate)) ∧
    (¬ (200 ≤ resp.status ∧ resp.status < 300) → resp.status ≠ 400 →
      resp.status ≠ 401 →
      requestClassify resp = .error (.apiError resp.body resp.status)) := by
  refine ⟨fun h => ?_, fun h => ?_, fun h2xx h400 h401 => ?_⟩
  · simp [requestClassify, processError, h]
  · simp [requestClassify, processError, h]
  · have h200 : resp.status ≠ 200 := by omega
    have h204 : resp.status ≠ 204 := by omega
    simp [requestClassify, processError, h200, h204, h400, h401]

/-- C3 witness: concrete 400, 401 and 500 responses classified through
the embedded _request path. -/
theorem c3_error_classification_witness :
    requestClassify ⟨400, .obj [("field_x", .str "required")], none⟩ =
      .error (.validationError (.obj [("field_x", .str "required")])) ∧
    requestClassify ⟨401, .str "denied", some "Bearer"⟩ =
      .error (.authError (.str "denied") (some "Bearer")) ∧
    requestClassify ⟨500, .str "boom", none⟩ =
      .error (.apiError (.str "boom") 500) :=
  ⟨(c3_error_classification ⟨400, .obj [("field_x", .str "required")], none⟩).1 rfl,
   (c3_error_classification ⟨401, .str "denied", some "Bearer"⟩).2.1 rfl,
   (c3_error_classification ⟨500, .str "boom", none⟩).2.2 (by decide)
     (by decide) (by decide)⟩

/-- C6: a 200 response yields the parsed JSON body as the success value
and a 204 response yields the boolean true, with no JSON parse of the
empty body. -/
theorem c6_success_classification (resp : Response) :
    (resp.status = 200 → requestClassify resp = .ok (.json resp.body)) ∧
    (resp.status = 204 → requestClassify resp = .ok (.bool true)) := by
  constructor <;> intro h <;> simp [requestClassify, h]

/-- C6 witness: concrete 200 and 204 responses. -/
theorem c6_success_classification_witness :
    requestClassify ⟨200, .obj [("count", .num 1)], none⟩ =
      .ok (.json (.obj [("count", .num 1)])) ∧
    requestClassify ⟨204, .null, none⟩ = .ok (.bool true) :=
  ⟨(c6_success_classification ⟨200, .obj [("count", .num 1)], none⟩).1 rfl,
   (c6_success_classification ⟨204, .null, none⟩).2 rfl⟩

/-- C1 counterexample: against a transport scripted to answer 401 and then
200, _request raises TargetAuthError at once after a single HTTP attempt,
with no token refresh; the claimed outcome, the 200 payload after two
attempts and one refresh, does not occur. -/
theorem c1_counterexample :
    requestRun [⟨401, .str "unauthorized", some "Bearer"⟩,
                ⟨200, .str "payload", none⟩] =
      some ⟨.error (.authError (.str "unauthorized") (some "Bearer")), 1, 0⟩ ∧
    requestRun [⟨401, .str "unauthorized", some "Bearer"⟩,
                ⟨200, .str "payload", none⟩] ≠
      some ⟨.ok (.json (.str "payload")), 2, 1⟩ := by
  refine ⟨rfl, fun h => ?_⟩
  simp [requestRun, requestClassify, processError] at h

/-- C1 amended: a request whose HTTP attempt returns status 401 performs
no token refresh and no retry; the first 401 is surfaced immediately as a
TargetAuthError carrying the body and the WWW-Authenticate header. -/
theorem c1_amended (r : Response) (rest : List Response)
    (h : r.status = 401) :
    requestRun (r :: rest) =
      some ⟨.error (.authError r.body r.wwwAuthenticate), 1, 0⟩ := by
  simp [requestRun, requestClassify, processError, h]

/-- C1 witness: concrete single-401 script. -/
theorem c1_amended_witness :
    requestRun [⟨401, .str "unauthorized", some "Bearer"⟩] =
      some ⟨.error (.authError (.str "unauthorized") (some "Bearer")), 1, 0⟩ :=
  c1_amended ⟨401, .str "unauthorized", some "Bearer"⟩ [] rfl

/-- C4 counterexample: when fetch_token fails with InvalidGrantError,
get_token propagates that library exception itself; the result is not the
client's typed TargetAuthError. -/
theorem c4_counterexample :
    getToken (.error (.invalidGrantError "invalid_grant")) true ⟨none, []⟩ =
      .error (.oauthlib (.invalidGrantError "invalid_grant")) ∧
    raisesTargetAuthError
      (getToken (.error (.invalidGrantError "invalid_grant")) true ⟨none, []⟩) =
      false :=
  ⟨rfl, rfl⟩

/-- C4 amended: when the remote token endpoint rejects the grant, the
OAuth library's exception, with its protocol diagnostic, propagates to the
caller unchanged; it is not wrapped into TargetAuthError, not retried, and
the stored token is not updated. -/
theorem c4_amended (e : OAuthFailure) (hasCb : Bool) (st : TokenState) :
    getToken (.error e) hasCb st = .error (.oauthlib e) ∧
    raisesTargetAuthError (getToken (.error e) hasCb st) = false :=
  ⟨rfl, rfl⟩

/-- C4 witness: concrete failed fetch with no registered callback. -/
theorem c4_amended_witness :
    getToken (.error (.invalidGrantError "invalid_grant")) false ⟨none, []⟩ =
      .error (.oauthlib (.invalidGrantError "invalid_grant")) ∧
    raisesTargetAuthError
      (getToken (.error (.invalidGrantError "invalid_grant")) false
        ⟨none, []⟩) = false :=
  c4_amended (.invalidGrantError "invalid_grant") false ⟨none, []⟩

/-- C5 counterexample: the constructor rejects the keywords
agency_client_id and agency_client_name, and a concretely constructed
client uses the plain client-credentials grant. -/
theorem c5_counterexample :
    initAccepts "agency_client_id" = false ∧
    initAccepts "agency_client_name" = false ∧
    fetchGrantType ⟨"cid", "secret", none, true, false⟩ = .clientCredentials := by
  decide

/-- C5 amended: the constructor accepts only client_id, client_secret,
token, is_sandbox and token_updater, with no agency parameters, and every
constructed client uses the plain client-credentials grant in fetch_token,
never the agency variant. -/
theorem c5_amended (p : InitParams) :
    fetchGrantType p = .clientCredentials ∧
    fetchGrantType p ≠ .agencyClientCredentials ∧
    initAccepts "agency_client_id" = false ∧
    initAccepts "agency_client_name" = false :=
  ⟨rfl, fun hcontra => GrantType.noConfusion hcontra, rfl, rfl⟩

/-- C5 witness: a production-host construction with a registered callback
still gets the plain grant. -/
theorem c5_amended_witness :
    fetchGrantType ⟨"cid", "secret", none, false, true⟩ = .clientCredentials ∧
    fetchGrantType ⟨"cid", "secret", none, false, true⟩ ≠
      .agencyClientCredentials ∧
    initAccepts "agency_client_id" = false ∧
    initAccepts "agency_client_name" = false :=
  c5_amended ⟨"cid", "secret", none, false, true⟩

/-- C7: _token_updater stores the token; with a registered callback it
forwards exactly that token to the callback, and with none it only stores
it, without failing. -/
theorem c7_token_updater (st : TokenState) (t : Json) :
    (tokenUpdaterStep true st t).stored = some t ∧
    (tokenUpdaterStep true st t).delivered = st.delivered ++ [t] ∧
    (tokenUpdaterStep false st t).stored = some t ∧
    (tokenUpdaterStep false st t).delivered = st.delivered :=
  ⟨rfl, rfl, rfl, rfl⟩

/-- C9: after any nonempty sequence of token fetches or updates, each of
which goes through _token_updater, the stored token equals the token last
delivered to the registered callback. -/
theorem c9_stored_matches_delivered (st : TokenState) (t : Json)
    (ts : List Json) :
    (runUpdates true st (t :: ts)).stored =
      (runUpdates true st (t :: ts)).delivered.getLast? := by
  induction ts generalizing st t with
  | nil => simp [runUpdates, tokenUpdaterStep]
  | cons u us ih =>
      have h := ih (tokenUpdaterStep true st t) u
      simp only [runUpdates, List.foldl_cons] at h ⊢
      exact h

/-- C7 witness: concrete token through both callback configurations. -/
theorem c7_token_updater_witness :
    (tokenUpdaterStep true ⟨none, []⟩ (.str "tok")).stored =
      some (.str "tok") ∧
    (tokenUpdaterStep true ⟨none, []⟩ (.str "tok")).delivered =
      [] ++ [.str "tok"] ∧
    (tokenUpdaterStep false ⟨none, []⟩ (.str "tok")).stored =
      some (.str "tok") ∧
    (tokenUpdaterStep false ⟨none, []⟩ (.str "tok")).delivered = [] :=
  c7_token_updater ⟨none, []⟩ (.str "tok")

/-- C9 witness: two successive updates leave the stored token equal to the
last delivered one. -/
theorem c9_stored_matches_delivered_witness :
    (runUpdates true ⟨none, []⟩ [.str "t1", .str "t2"]).stored =
      (runUpdates true ⟨none, []⟩ [.str "t1", .str "t2"]).delivered.getLast? :=
  c9_stored_matches_delivered ⟨none, []⟩ (.str "t1") [.str "t2"]

/-- C10: get_ok_lead forwards the caller's keyword arguments verbatim as
the query parameters of a get request on v2/ok/lead_ads/ followed by the
form id and .json (no v1/ prefix, no clamping or validation), and a 200
response yields its parsed JSON body unchanged. -/
theorem c10_get_ok_lead (url : String) (formId : String)
    (kwargs : List (String × String)) (transport : HttpRequest → Response)
    (h : (transport (getOkLeadRequest url formId kwargs)).status = 200) :
    (getOkLeadRequest url formId kwargs).params = kwargs ∧
    (getOkLeadRequest url formId kwargs).method = "get" ∧
    (getOkLeadRequest url formId kwargs).url =
      url ++ ("v2/ok/lead_ads/" ++ formId ++ ".json") ∧
    getOkLead url formId kwargs transport =
      .ok (.json (transport (getOkLeadRequest url formId kwargs)).body) := by
  have hlit : ("v2/ok/lead_ads/" : String).data =
      'v' :: ("2/ok/lead_ads/" : String).data := rfl
  have hdata : ("v2/ok/lead_ads/" ++ formId ++ ".json").data =
      'v' :: (("2/ok/lead_ads/" : String).data ++ formId.data ++
        (".json" : String).data) := by
    rw [String.data_append, String.data_append, hlit]
    simp
  refine ⟨rfl, rfl, ?_, ?_⟩
  · exact getUrlResource_head_v url _ _ hdata
  · simp [getOkLead, requestClassify, h]

/-- C10 witness: a limit of 100, above the documented maximum of 50, is
sent exactly as given and the stubbed 200 body comes back unchanged. -/
theorem c10_get_ok_lead_witness :
    (getOkLeadRequest (baseUrl SANDBOX_HOST) "123" [("limit", "100")]).params =
      [("limit", "100")] ∧
    (getOkLeadRequest (baseUrl SANDBOX_HOST) "123" [("limit", "100")]).method =
      "get" ∧
    (getOkLeadRequest (baseUrl SANDBOX_HOST) "123" [("limit", "100")]).url =
      baseUrl SANDBOX_HOST ++ ("v2/ok/lead_ads/" ++ "123" ++ ".json") ∧
    getOkLead (baseUrl SANDBOX_HOST) "123" [("limit", "100")]
      (fun _ => ⟨200, .str "leads", none⟩) = .ok (.json (.str "leads")) :=
  c10_get_ok_lead (baseUrl SANDBOX_HOST) "123" [("limit", "100")]
    (fun _ => ⟨200, .str "leads", none⟩) rfl

end TargetApi
